import Mathlib

/-!
Verification of the LibreLinkUp client (`src/python/main.py`) against its
specification.  The Python module is shallowly embedded: JSON values become an
inductive `Json` type, the mutable `LibreLinkUpClient` object becomes an
explicit `ClientState` record, and every HTTP round trip consumes one
`HttpResp` from a response script, recording the `Request` it would have sent.
Each Python method becomes a pure Lean function from a state and a script to
an `OpResult` carrying the outcome (`Except LLUError`), the mutated state, the
requests issued, and the unconsumed script.

Python-specific semantics (truthiness of values, `dict.get`, the `x or y`
idiom, `str()` conversion) are modelled by dedicated helpers so that each line
of the source has a recognisable counterpart here.
-/

namespace LLU

/-- JSON values, as produced by `resp.json()`.  Numbers are modelled as
integers (every number the client inspects — HTTP statuses and the
application `status` field — is an integer). -/
inductive Json where
  | null : Json
  | bool : Bool → Json
  | num : Int → Json
  | str : String → Json
  | arr : List Json → Json
  | obj : List (String × Json) → Json

/-- Fields of a JSON object, i.e. a Python dict with string keys. -/
abbrev Fields := List (String × Json)

/-- `d.get(k)`: the value under the first matching key, if any.  (JSON
objects / Python dicts have unique keys; first match models lookup.) -/
def objGet (fs : Fields) (k : String) : Option Json :=
  match fs with
  | [] => none
  | (k', v) :: rest => if k' = k then some v else objGet rest k

/-- `d[k] = v`: overwrite the value under `k`, or append the binding. -/
def objSet (fs : Fields) (k : String) (v : Json) : Fields :=
  match fs with
  | [] => [(k, v)]
  | (k', v') :: rest => if k' = k then (k', v) :: rest else (k', v') :: objSet rest k v

/-- Python truthiness of a JSON value: `None`, `False`, `0`, `""`, `[]` and
an empty dict are falsy, everything else is truthy. -/
def Json.truthy : Json → Bool
  | .null => false
  | .bool b => b
  | .num n => n != 0
  | .str s => s != ""
  | .arr xs => !xs.isEmpty
  | .obj fs => !fs.isEmpty

/-- Truthiness of a `dict.get` result, where a missing key (`None`) is falsy. -/
def optTruthy : Option Json → Bool
  | none => false
  | some v => v.truthy

/-- Python `a or b` over values that may be `None` (missing): `a` when `a` is
truthy, otherwise `b`. -/
def pyOr (a b : Option Json) : Option Json :=
  match a with
  | some v => if v.truthy then some v else b
  | none => b

/-- Python `a or dflt` with a non-`None` default (e.g. `g.get("data") or {}`). -/
def pyOrD (a : Option Json) (dflt : Json) : Json :=
  match a with
  | some v => if v.truthy then v else dflt
  | none => dflt

mutual
/-- Python `repr()` of a JSON value (scalars exactly as CPython renders them;
strings are quoted with the apostrophe character, written `\x27`; escaping of
quote characters inside strings is not reproduced — no claim depends on it). -/
def Json.pyRepr : Json → String
  | .null => "None"
  | .bool true => "True"
  | .bool false => "False"
  | .num n => toString n
  | .str s => "\x27" ++ s ++ "\x27"
  | .arr xs => "[" ++ Json.pyReprElems xs ++ "]"
  | .obj fs => "\x7b" ++ Json.pyReprFields fs ++ "\x7d"

/-- Comma-separated `repr`s of list elements. -/
def Json.pyReprElems : List Json → String
  | [] => ""
  | [x] => Json.pyRepr x
  | x :: xs => Json.pyRepr x ++ ", " ++ Json.pyReprElems xs

/-- Comma-separated `key: value` renderings of dict entries. -/
def Json.pyReprFields : List (String × Json) → String
  | [] => ""
  | [(k, v)] => "\x27" ++ k ++ "\x27: " ++ Json.pyRepr v
  | (k, v) :: fs => "\x27" ++ k ++ "\x27: " ++ Json.pyRepr v ++ ", " ++ Json.pyReprFields fs
end

/-- Python `str()` of a JSON value: the string itself for strings, `repr`
otherwise. -/
def Json.pyStr : Json → String
  | .str s => s
  | j => Json.pyRepr j

/-- Truthiness of an `Optional[str]` (`None` and `""` are falsy). -/
def optStrTruthy : Option String → Bool
  | none => false
  | some s => s != ""

/-!
## SHA-256

`login` stores `hashlib.sha256(user_id.encode("utf-8")).hexdigest()` as the
account id.  The hash is embedded concretely: bytes are `Nat`s below 256,
32-bit words are `Nat`s reduced modulo `2^32`, and the algorithm follows
FIPS 180-4.  Test vectors below the definition pin it to the standard.
-/

namespace Sha256

/-- Reduce to a 32-bit word. -/
def w32 (n : Nat) : Nat := n % 4294967296

/-- Right rotation of a 32-bit word by `n` places (`0 < n < 32`). -/
def rotr (x n : Nat) : Nat := w32 ((x >>> n) ||| (x <<< (32 - n)))

/-- Bitwise complement within 32 bits. -/
def not32 (x : Nat) : Nat := x ^^^ 4294967295

/-- `Ch(x, y, z) = (x ∧ y) ⊕ (¬x ∧ z)`. -/
def ch (x y z : Nat) : Nat := (x &&& y) ^^^ (not32 x &&& z)

/-- `Maj(x, y, z) = (x ∧ y) ⊕ (x ∧ z) ⊕ (y ∧ z)`. -/
def maj (x y z : Nat) : Nat := (x &&& y) ^^^ (x &&& z) ^^^ (y &&& z)

/-- `Σ₀` of the compression function. -/
def bigSigma0 (x : Nat) : Nat := rotr x 2 ^^^ rotr x 13 ^^^ rotr x 22

/-- `Σ₁` of the compression function. -/
def bigSigma1 (x : Nat) : Nat := rotr x 6 ^^^ rotr x 11 ^^^ rotr x 25

/-- `σ₀` of the message schedule. -/
def smallSigma0 (x : Nat) : Nat := rotr x 7 ^^^ rotr x 18 ^^^ (x >>> 3)

/-- `σ₁` of the message schedule. -/
def smallSigma1 (x : Nat) : Nat := rotr x 17 ^^^ rotr x 19 ^^^ (x >>> 10)

/-- The 64 round constants of FIPS 180-4 (the first 32 bits of the
fractional parts of the cube roots of the first 64 primes), in decimal. -/
def K : Array Nat := #[
  1116352408, 1899447441, 3049323471, 3921009573, 961987163,
  1508970993, 2453635748, 2870763221, 3624381080, 310598401,
  607225278, 1426881987, 1925078388, 2162078206, 2614888103,
  3248222580, 3835390401, 4022224774, 264347078, 604807628,
  770255983, 1249150122, 1555081692, 1996064986, 2554220882,
  2821834349, 2952996808, 3210313671, 3336571891, 3584528711,
  113926993, 338241895, 666307205, 773529912, 1294757372,
  1396182291, 1695183700, 1986661051, 2177026350, 2456956037,
  2730485921, 2820302411, 3259730800, 3345764771, 3516065817,
  3600352804, 4094571909, 275423344, 430227734, 506948616,
  659060556, 883997877, 958139571, 1322822218, 1537002063,
  1747873779, 1955562222, 2024104815, 2227730452, 2361852424,
  2428436474, 2756734187, 3204031479, 3329325298]

/-- The initial hash value of FIPS 180-4 (the first 32 bits of the
fractional parts of the square roots of the first 8 primes), as the list
`[h0, …, h7]` in decimal. -/
def H0 : List Nat := [
  1779033703, 3144134277, 1013904242, 2773480762,
  1359893119, 2600822924, 528734635, 1541459225]

/-- Extend a 16-word block to the 64-word message schedule; called with the
next index `i` (from 16) and the remaining count as fuel. -/
def extend (ws : Array Nat) (i fuel : Nat) : Array Nat :=
  match fuel with
  | 0 => ws
  | f + 1 =>
      let nw := w32 (smallSigma1 (ws.getD (i - 2) 0) + ws.getD (i - 7) 0 +
        smallSigma0 (ws.getD (i - 15) 0) + ws.getD (i - 16) 0)
      extend (ws.push nw) (i + 1) f

/-- Working variables `(a, b, c, d, e, f, g, h)` of the compression loop. -/
structure Work where
  a : Nat
  b : Nat
  c : Nat
  d : Nat
  e : Nat
  f : Nat
  g : Nat
  h : Nat

/-- One round of the compression function, using schedule word and round
constant number `i`. -/
def round (ws : Array Nat) (i : Nat) (s : Work) : Work :=
  let t1 := w32 (s.h + bigSigma1 s.e + ch s.e s.f s.g + K.getD i 0 + ws.getD i 0)
  let t2 := w32 (bigSigma0 s.a + maj s.a s.b s.c)
  { a := w32 (t1 + t2), b := s.a, c := s.b, d := s.c,
    e := w32 (s.d + t1), f := s.e, g := s.f, h := s.g }

/-- Run rounds `i, i+1, …` while fuel remains. -/
def rounds (ws : Array Nat) (i fuel : Nat) (s : Work) : Work :=
  match fuel with
  | 0 => s
  | f + 1 => rounds ws (i + 1) f (round ws i s)

/-- Compress one 16-word block into the running hash `[h0, …, h7]`. -/
def compress (hs : List Nat) (block : List Nat) : List Nat :=
  let ws := extend (List.toArray block) 16 48
  let g := fun i => hs.getD i 0
  let s0 : Work := ⟨g 0, g 1, g 2, g 3, g 4, g 5, g 6, g 7⟩
  let s := rounds ws 0 64 s0
  [w32 (g 0 + s.a), w32 (g 1 + s.b), w32 (g 2 + s.c), w32 (g 3 + s.d),
   w32 (g 4 + s.e), w32 (g 5 + s.f), w32 (g 6 + s.g), w32 (g 7 + s.h)]

/-- Big-endian 4-byte groups to 32-bit words (input length a multiple of 4). -/
def bytesToWords : List Nat → List Nat
  | b0 :: b1 :: b2 :: b3 :: rest =>
      (((b0 * 256 + b1) * 256 + b2) * 256 + b3) :: bytesToWords rest
  | _ => []

/-- Split a word list into 16-word blocks (input length a multiple of 16). -/
def toBlocks : List Nat → List (List Nat)
  | w0 :: w1 :: w2 :: w3 :: w4 :: w5 :: w6 :: w7 ::
    w8 :: w9 :: w10 :: w11 :: w12 :: w13 :: w14 :: w15 :: rest =>
      [w0, w1, w2, w3, w4, w5, w6, w7, w8, w9, w10, w11, w12, w13, w14, w15]
        :: toBlocks rest
  | _ => []

/-- Big-endian bytes of `n`, `k` bytes wide. -/
def beBytes (k n : Nat) : List Nat :=
  match k with
  | 0 => []
  | k + 1 => beBytes k (n / 256) ++ [n % 256]

/-- FIPS 180-4 padding: append `0x80`, zeros to 56 mod 64 bytes, and the
bit length as an 8-byte big-endian number. -/
def pad (msg : List Nat) : List Nat :=
  let len := msg.length
  let zeros := (120 - (len + 1) % 64) % 64
  msg ++ 0x80 :: List.replicate zeros 0 ++ beBytes 8 (8 * len)

/-- The SHA-256 digest of a byte string, as eight 32-bit words. -/
def digestWords (msg : List Nat) : List Nat :=
  (toBlocks (bytesToWords (pad msg))).foldl compress H0

/-- A nibble as a lowercase hex character. -/
def hexDigit (n : Nat) : Char := "0123456789abcdef".toList.getD n '0'

/-- A 32-bit word as 8 lowercase hex characters. -/
def wordHex (n : Nat) : List Char :=
  [hexDigit (n / 0x10000000 % 16), hexDigit (n / 0x1000000 % 16),
   hexDigit (n / 0x100000 % 16), hexDigit (n / 0x10000 % 16),
   hexDigit (n / 0x1000 % 16), hexDigit (n / 0x100 % 16),
   hexDigit (n / 0x10 % 16), hexDigit (n % 16)]

/-- `hashlib.sha256(bytes).hexdigest()`: the digest as 64 lowercase hex
characters. -/
def hexdigest (msg : List Nat) : String :=
  String.mk ((digestWords msg).flatMap wordHex)

end Sha256

/-- UTF-8 encoding of one code point. -/
def utf8Char (c : Nat) : List Nat :=
  if c < 0x80 then [c]
  else if c < 0x800 then [0xc0 ||| (c >>> 6), 0x80 ||| (c &&& 0x3f)]
  else if c < 0x10000 then
    [0xe0 ||| (c >>> 12), 0x80 ||| ((c >>> 6) &&& 0x3f), 0x80 ||| (c &&& 0x3f)]
  else
    [0xf0 ||| (c >>> 18), 0x80 ||| ((c >>> 12) &&& 0x3f),
     0x80 ||| ((c >>> 6) &&& 0x3f), 0x80 ||| (c &&& 0x3f)]

/-- `s.encode("utf-8")` as a byte list. -/
def utf8Encode (s : String) : List Nat :=
  s.toList.flatMap (fun c => utf8Char c.toNat)

/-- `hashlib.sha256(uid.encode("utf-8")).hexdigest()`. -/
def sha256hex (s : String) : String :=
  Sha256.hexdigest (utf8Encode s)

/-!
## The client

`LibreLinkUpClient`'s mutable attributes become `ClientState`; `requests` is
replaced by a script of pre-recorded responses, consumed one per HTTP call,
and every call also logs the `Request` the client sent.  Exceptions become an
`LLUError`; each `raise` site in the source has its own constructor (the
source raises `RuntimeError` everywhere, distinguished by message — the
spec's error taxonomy names these sites AuthError / ApiError /
NoConnectionError / DataShapeError).
-/

/-- `DEFAULT_BASE`. -/
def DEFAULT_BASE : String := "https://api.libreview.io"

/-- The mutable attributes of a `LibreLinkUpClient` instance. -/
structure ClientState where
  email : String
  password : String
  base_url : String
  product : String
  version : String
  /-- `self._token` (`None` initially). -/
  token : Option String
  /-- `self._account_id_hash` (`None` initially). -/
  account_id_hash : Option String
deriving Repr, DecidableEq

/-- `s.rstrip("/")`: drop trailing slashes. -/
def rstripSlash (s : String) : String :=
  String.mk (s.toList.reverse.dropWhile (· = '/') |>.reverse)

/-- `LibreLinkUpClient.__init__` (with the constructor's defaults for
`base_url`, `product` and `version`; `timeout_s` plays no role in the
model). -/
def mkClient (email password : String) (base_url : String := DEFAULT_BASE)
    (product : String := "llu.android") (version : String := "4.16.0") : ClientState :=
  { email := email, password := password, base_url := rstripSlash base_url,
    product := product, version := version, token := none, account_id_hash := none }

/-- `LibreLinkUpSession`. -/
structure LibreLinkUpSession where
  base_url : String
  token : String
  account_id_hash : Option String
  version : String
deriving Repr, DecidableEq

/-- One HTTP response of the script: the status code and the JSON-object
body returned by `resp.json()`.  (Responses whose body is not a JSON object
make `_request` raise before any logic under verification runs; no claim
concerns them, so the script ranges over object bodies.) -/
structure HttpResp where
  status : Nat
  body : Fields

/-- A request the client issued: method, full URL, headers, JSON body. -/
structure Request where
  method : String
  url : String
  headers : List (String × String)
  jsonBody : Option Json

/-- One constructor per `raise` site reached by the modelled operations,
plus `scriptEnds` for the model-only case that the response script runs
out. -/
inductive LLUError where
  /-- Model only: no scripted response left for an HTTP call. -/
  | scriptEnds : LLUError
  /-- `login`: "Redirected but no region in payload". -/
  | redirectNoRegion : LLUError
  /-- `login`: "Login failed ({http_status})". -/
  | loginFailed : Int → LLUError
  /-- `login`: "Login response missing token". -/
  | loginMissingToken : LLUError
  /-- `connections`: "Connections failed ({status})". -/
  | connectionsFailed : Int → LLUError
  /-- `graph`: "Graph failed ({status})". -/
  | graphFailed : Int → LLUError
  /-- `first_patient_id`: "Unexpected connections payload". -/
  | unexpectedConnectionsPayload : LLUError
  /-- `first_patient_id`: Python `AttributeError` from `conns[0].get(...)`
  when the first list element is not a dict. -/
  | attributeError : LLUError
  /-- `last_reading`: "No connections found", with the full message. -/
  | noConnections : String → LLUError
  /-- `last_reading`: "Unexpected graph payload shape (data not dict)". -/
  | graphDataNotDict : LLUError
  /-- `last_reading`: "Unexpected graph payload shape (connection not
  dict)". -/
  | graphConnectionNotDict : LLUError
  /-- `last_reading`: "Couldn't find data.connection.glucoseMeasurement",
  carrying `list(conn.keys())` as reported in the message. -/
  | missingGlucoseMeasurement : List String → LLUError
deriving Repr, DecidableEq

/-- The outcome of running one client method against a response script:
result or exception, the state after all mutations (mutations before a raise
persist, as in Python), the requests issued, and the unconsumed script. -/
structure OpResult (α : Type) where
  res : Except LLUError α
  state : ClientState
  requests : List Request
  rest : List HttpResp

/-- Sequencing: run `r`; on success feed its value, state and remaining
script to `k`, accumulating issued requests. -/
def OpResult.andThen (r : OpResult α) (k : α → ClientState → List HttpResp → OpResult β) :
    OpResult β :=
  match r.res with
  | .error e => ⟨.error e, r.state, r.requests, r.rest⟩
  | .ok a =>
      let r2 := k a r.state r.rest
      ⟨r2.res, r2.state, r.requests ++ r2.requests, r2.rest⟩

/-- `_headers`. -/
def headers (st : ClientState) : List (String × String) :=
  [("accept-encoding", "gzip"), ("cache-control", "no-cache"),
   ("connection", "Keep-Alive"), ("content-type", "application/json"),
   ("product", st.product), ("version", st.version)]
  ++ (match st.token with
      | some t => if t ≠ "" then [("authorization", "Bearer " ++ t)] else []
      | none => [])
  ++ (match st.account_id_hash with
      | some h => if h ≠ "" then [("account-id", h)] else []
      | none => [])

/-- The body of `_request` after `resp.json()`:
`payload["_http_status"] = resp.status_code`. -/
def attachStatus (r : HttpResp) : Fields :=
  objSet r.body "_http_status" (.num r.status)

/-- `_request`, against the script: consume the next response, record the
request (`_url` builds `base_url + path`), attach the HTTP status. -/
def doRequest (st : ClientState) (script : List HttpResp) (method path : String)
    (jsonBody : Option Json) : Option (Fields × Request × List HttpResp) :=
  match script with
  | [] => none
  | r :: rest =>
      some (attachStatus r,
        ⟨method, st.base_url ++ path, headers st, jsonBody⟩, rest)

/-- `_data_dict`. -/
def data_dict (payload : Fields) : Fields :=
  match objGet payload "data" with
  | some (.obj fs) => fs
  | _ => []

/-- `_is_redirect`: `data` is a dict and `data.get("redirect") is True`. -/
def is_redirect (payload : Fields) : Bool :=
  match objGet payload "data" with
  | some (.obj fs) =>
      (match objGet fs "redirect" with
       | some (.bool true) => true
       | _ => false)
  | _ => false

/-- `_region`: `data.get("region") or payload.get("region")`, kept only when
it is a string. -/
def region (payload : Fields) : Option String :=
  match pyOr (objGet (data_dict payload) "region") (objGet payload "region") with
  | some (.str s) => some s
  | _ => none

/-- `_minimum_version`: on HTTP 403 with application status 920, the
`data.minimumVersion` string. -/
def minimum_version (payload : Fields) : Option String :=
  match objGet payload "_http_status", objGet payload "status" with
  | some (.num 403), some (.num 920) =>
      (match objGet (data_dict payload) "minimumVersion" with
       | some (.str s) => some s
       | _ => none)
  | _, _ => none

/-- The final `payload.get("token")` branch of `_extract_token`. -/
def extractTokenTop (payload : Fields) : Option String :=
  match objGet payload "token" with
  | some v => if v.truthy then some v.pyStr else none
  | none => none

/-- The `ticket.token` / top-level `token` branches of `_extract_token`. -/
def extractTokenFallback (payload : Fields) : Option String :=
  match objGet payload "ticket" with
  | some (.obj t) =>
      (match objGet t "token" with
       | some v => if v.truthy then some v.pyStr else extractTokenTop payload
       | none => extractTokenTop payload)
  | _ => extractTokenTop payload

/-- The `d.get("token")` branch of `_extract_token` (reached when the
`authTicket` branch did not return). -/
def extractTokenAfterData (payload : Fields) (d : Fields) : Option String :=
  match objGet d "token" with
  | some v => if v.truthy then some v.pyStr else extractTokenFallback payload
  | none => extractTokenFallback payload

/-- `_extract_token`: `data.authTicket.token`, then `data.token`, then
`ticket.token`, then top-level `token` — each taken when truthy, converted
with `str()`. -/
def extract_token (payload : Fields) : Option String :=
  match objGet payload "data" with
  | some (.obj d) =>
      (match objGet d "authTicket" with
       | some (.obj auth) =>
           (match objGet auth "token" with
            | some v =>
                if v.truthy then some v.pyStr
                else extractTokenAfterData payload d
            | none => extractTokenAfterData payload d)
       | _ => extractTokenAfterData payload d)
  | _ => extractTokenFallback payload

/-- `_user_id_from_login`: `data.user.id` when truthy, via `str()`. -/
def user_id_from_login (payload : Fields) : Option String :=
  match objGet (data_dict payload) "user" with
  | some (.obj user) =>
      (match objGet user "id" with
       | some v => if v.truthy then some v.pyStr else none
       | none => none)
  | _ => none

/-- `payload.get("_http_status", 200)` (always an integer: `_request` sets
it from `resp.status_code`). -/
def http_status (payload : Fields) : Int :=
  match objGet payload "_http_status" with
  | some (.num n) => n
  | _ => 200

/-- Truthiness of `self._token`. -/
def tokenTruthy (st : ClientState) : Bool :=
  optStrTruthy st.token

/-- The second half of `login`, after redirect handling: status check, token
and user-id extraction, state update, session construction.  `reqs` and
`rest` are threaded through unchanged for the `OpResult`. -/
def loginFinish (st : ClientState) (payload : Fields) (reqs : List Request)
    (rest : List HttpResp) : OpResult LibreLinkUpSession :=
  let status := http_status payload
  if 400 ≤ status then ⟨.error (.loginFailed status), st, reqs, rest⟩
  else
    match extract_token payload with
    | none => ⟨.error .loginMissingToken, st, reqs, rest⟩
    | some token =>
        if token = "" then ⟨.error .loginMissingToken, st, reqs, rest⟩
        else
          let st1 := { st with token := some token }
          let st2 :=
            match user_id_from_login payload with
            | some uid =>
                if uid ≠ "" then
                  { st1 with account_id_hash := some (sha256hex uid) }
                else st1
            | none => st1
          ⟨.ok ⟨st2.base_url, token, st2.account_id_hash, st2.version⟩, st2, reqs, rest⟩

/-- `login`: POST the credentials; on a redirect signal rebuild the base URL
from the region and retry once; then check status, extract the token and the
user id, and build the session. -/
def login (st0 : ClientState) (script : List HttpResp) : OpResult LibreLinkUpSession :=
  let body : Json := .obj [("email", .str st0.email), ("password", .str st0.password)]
  match doRequest st0 script "POST" "/llu/auth/login" (some body) with
  | none => ⟨.error .scriptEnds, st0, [], script⟩
  | some (p1, req1, rest1) =>
      if is_redirect p1 then
        match region p1 with
        | none => ⟨.error .redirectNoRegion, st0, [req1], rest1⟩
        | some reg =>
            if reg = "" then ⟨.error .redirectNoRegion, st0, [req1], rest1⟩
            else
              let st1 := { st0 with
                base_url := "https://api-" ++ reg.toLower ++ ".libreview.io" }
              match doRequest st1 rest1 "POST" "/llu/auth/login" (some body) with
              | none => ⟨.error .scriptEnds, st1, [req1], rest1⟩
              | some (p2, req2, rest2) => loginFinish st1 p2 [req1, req2] rest2
      else loginFinish st0 p1 [req1] rest1

/-- The tail of `_call_with_min_version_retry`: rotate the stored token if
the payload carries one, and return the payload. -/
def finishCall (st : ClientState) (payload : Fields) (reqs : List Request)
    (rest : List HttpResp) : OpResult Fields :=
  let st1 :=
    match extract_token payload with
    | some t => if t ≠ "" then { st with token := some t } else st
    | none => st
  ⟨.ok payload, st1, reqs, rest⟩

/-- `_call_with_min_version_retry`: issue the request; on the 403/920
minimum-version signature bump the stored version and retry once; keep the
newest token if the final payload carries one. -/
def call_with_min_version_retry (st0 : ClientState) (script : List HttpResp)
    (method path : String) (jsonBody : Option Json) : OpResult Fields :=
  match doRequest st0 script method path jsonBody with
  | none => ⟨.error .scriptEnds, st0, [], script⟩
  | some (p1, req1, rest1) =>
      match minimum_version p1 with
      | some mv =>
          if mv = "" then finishCall st0 p1 [req1] rest1
          else
            let st1 := { st0 with version := mv }
            match doRequest st1 rest1 method path jsonBody with
            | none => ⟨.error .scriptEnds, st1, [req1], rest1⟩
            | some (p2, req2, rest2) => finishCall st1 p2 [req1, req2] rest2
      | none => finishCall st0 p1 [req1] rest1

/-- `if not self._token: self.login()` — the login-on-demand prologue of
`connections` and `graph` (the session it returns is discarded). -/
def ensureLogin (st0 : ClientState) (script : List HttpResp) : OpResult Unit :=
  if tokenTruthy st0 then ⟨.ok (), st0, [], script⟩
  else
    let l := login st0 script
    ⟨l.res.map (fun _ => ()), l.state, l.requests, l.rest⟩

/-- `connections`: login on demand, GET `/llu/connections` through the
version-retry wrapper, fail on status ≥ 400. -/
def connections (st0 : ClientState) (script : List HttpResp) : OpResult Fields :=
  (ensureLogin st0 script).andThen fun _ st rest =>
    (call_with_min_version_retry st rest "GET" "/llu/connections" none).andThen
      fun payload st2 rest2 =>
        let status := http_status payload
        if 400 ≤ status then ⟨.error (.connectionsFailed status), st2, [], rest2⟩
        else ⟨.ok payload, st2, [], rest2⟩

/-- `graph`: login on demand, GET
`/llu/connections/{patient_id}/graph` through the version-retry wrapper,
fail on status ≥ 400. -/
def graph (st0 : ClientState) (script : List HttpResp) (patient_id : String) :
    OpResult Fields :=
  (ensureLogin st0 script).andThen fun _ st rest =>
    (call_with_min_version_retry st rest "GET"
        ("/llu/connections/" ++ patient_id ++ "/graph") none).andThen
      fun payload st2 rest2 =>
        let status := http_status payload
        if 400 ≤ status then ⟨.error (.graphFailed status), st2, [], rest2⟩
        else ⟨.ok payload, st2, [], rest2⟩

/-- The pure tail of `first_patient_id`, on the connections payload:
empty list → `None`; not a list → "Unexpected connections payload"; a
non-empty list whose head is a dict → `str` of the truthy
`patientId`/`patient_id` value, else `None`; a non-dict head →
`AttributeError` from `conns[0].get`. -/
def firstPatientIdOf (payload : Fields) : Except LLUError (Option String) :=
  match objGet payload "data" with
  | some (.arr []) => .ok none
  | some (.arr (first :: _)) =>
      (match first with
       | .obj fs =>
           (match pyOr (objGet fs "patientId") (objGet fs "patient_id") with
            | some v => if v.truthy then .ok (some v.pyStr) else .ok none
            | none => .ok none)
       | _ => .error .attributeError)
  | _ => .error .unexpectedConnectionsPayload

/-- `first_patient_id`: fetch the connections payload and read the first
patient id out of it. -/
def first_patient_id (st0 : ClientState) (script : List HttpResp) :
    OpResult (Option String) :=
  (connections st0 script).andThen fun payload st rest =>
    ⟨firstPatientIdOf payload, st, [], rest⟩

/-- The `NoConnectionError` message raised by `last_reading`, verbatim. -/
def noConnectionsMessage : String :=
  "No connections found (connections.data = []).\n" ++
  "You must share data from the LibreLink app to this LibreLinkUp account, " ++
  "then accept the invite in LibreLinkUp. After that, connections will contain patientId."

/-- The pure tail of `last_reading`, on the graph payload:
`data = g.get("data") or {}` must be a dict, `connection = data.get("connection")
or {}` must be a dict, and the truthy `glucoseMeasurement` is returned —
otherwise the error lists `list(conn.keys())`. -/
def readingOf (g : Fields) : Except LLUError Json :=
  match pyOrD (objGet g "data") (.obj []) with
  | .obj dfs =>
      (match pyOrD (objGet dfs "connection") (.obj []) with
       | .obj cfs =>
           (match objGet cfs "glucoseMeasurement" with
            | some latest =>
                if latest.truthy then .ok latest
                else .error (.missingGlucoseMeasurement (cfs.map Prod.fst))
            | none => .error (.missingGlucoseMeasurement (cfs.map Prod.fst)))
       | _ => .error .graphConnectionNotDict)
  | _ => .error .graphDataNotDict

/-- `last_reading`: resolve the first patient id (`NoConnectionError` if
none), fetch that patient's graph, and return
`data.connection.glucoseMeasurement`. -/
def last_reading (st0 : ClientState) (script : List HttpResp) : OpResult Json :=
  (first_patient_id st0 script).andThen fun pid? st rest =>
    match pid? with
    | none => ⟨.error (.noConnections noConnectionsMessage), st, [], rest⟩
    | some pid =>
        if pid = "" then ⟨.error (.noConnections noConnectionsMessage), st, [], rest⟩
        else
          (graph st rest pid).andThen fun g st2 rest2 =>
            ⟨readingOf g, st2, [], rest2⟩

/-!
The spec describes token extraction as four payload locations probed in
priority order.  `Json.getPath`, `tokenLocations`, `firstTokenLoc` and
`extractTokenSpec` below are written from the spec's words; the lemma
`extract_token_eq_spec` proves `_extract_token` extensionally equal to that
description.
-/

/-- Follow a key path through nested JSON objects. -/
def Json.getPath : Json → List String → Option Json
  | j, [] => some j
  | .obj fs, k :: ks =>
      (match objGet fs k with
       | some v => v.getPath ks
       | none => none)
  | _, _ :: _ => none

/-- The four token locations of the spec, in the documented priority order:
`data.authTicket.token`, `data.token`, `ticket.token`, top-level `token`. -/
def tokenLocations (p : Fields) : List (Option Json) :=
  [(Json.obj p).getPath ["data", "authTicket", "token"],
   (Json.obj p).getPath ["data", "token"],
   (Json.obj p).getPath ["ticket", "token"],
   (Json.obj p).getPath ["token"]]

/-- The first location in the list that holds a token (a truthy value). -/
def firstTokenLoc : List (Option Json) → Option Json
  | [] => none
  | some v :: rest => if v.truthy then some v else firstTokenLoc rest
  | none :: rest => firstTokenLoc rest

/-- Token extraction as the spec words it: the value (via `str()`) of the
first of the four locations that holds a token. -/
def extractTokenSpec (p : Fields) : Option String :=
  (firstTokenLoc (tokenLocations p)).map Json.pyStr

/-- A location is "empty" of tokens: absent, or holding the empty string. -/
def locEmpty : Option Json → Bool
  | none => true
  | some (.str s) => s == ""
  | some _ => false

/-- All four token locations are absent or hold only empty strings. -/
def allTokenLocsEmpty (p : Fields) : Bool :=
  (tokenLocations p).all locEmpty

/-- The login request body. -/
def loginBody (st : ClientState) : Json :=
  .obj [("email", .str st.email), ("password", .str st.password)]

/-- The request `login` sends from state `st`. -/
def loginRequest (st : ClientState) : Request :=
  ⟨"POST", st.base_url ++ "/llu/auth/login", headers st, some (loginBody st)⟩

/-- The wrapper request with method `m` and path `path` from state `st`. -/
def callRequest (st : ClientState) (m path : String) (b : Option Json) : Request :=
  ⟨m, st.base_url ++ path, headers st, b⟩

set_option maxRecDepth 100000

/-- Test vector: SHA-256 of the empty string (FIPS 180-4 / `sha256sum`). -/
theorem sha256hex_empty :
    sha256hex "" = "e3b0c44298fc1c149afbf4c8996fb92427ae41e4649b934ca495991b7852b855" := by
  rfl

/-- Test vector: SHA-256 of `"abc"` (FIPS 180-4 appendix B.1). -/
theorem sha256hex_abc :
    sha256hex "abc" = "ba7816bf8f01cfea414140de5dae2223b00361a396177a9cb410ff61f20015ad" := by
  rfl

/-!
## Shared lemmas

Facts used by several of the claim theorems below.  First: `str()` of a
truthy value is never the empty string, so `_extract_token` never returns an
empty token.
-/

/-- `Nat.toDigitsCore` never shortens its accumulator. -/
theorem toDigitsCore_length (b fuel n : Nat) (ds : List Char) :
    ds.length ≤ (Nat.toDigitsCore b fuel n ds).length := by
  induction fuel generalizing n ds with
  | zero => simp [Nat.toDigitsCore]
  | succ f ih =>
      simp only [Nat.toDigitsCore]
      split
      · simp
      · exact le_trans (by simp) (ih _ _)

/-- The digit list of a natural number is never empty. -/
theorem toDigits_ne_nil (b n : Nat) : Nat.toDigits b n ≠ [] := by
  intro h
  have h1 : 1 ≤ (Nat.toDigits b n).length := by
    unfold Nat.toDigits Nat.toDigitsCore
    by_cases hc : n / b = 0
    · simp [hc]
    · simp only [hc, if_false]
      exact le_trans (by simp) (toDigitsCore_length _ _ _ _)
  rw [h] at h1
  simp at h1

/-- `Nat.repr` never returns the empty string. -/
theorem natRepr_ne_empty (n : Nat) : Nat.repr n ≠ "" := by
  intro h
  exact toDigits_ne_nil 10 n (by simpa [Nat.repr, List.asString] using congrArg String.data h)

/-- `toString` of an integer never returns the empty string. -/
theorem intToString_ne_empty (n : Int) : toString n ≠ "" := by
  cases n with
  | ofNat m => exact natRepr_ne_empty m
  | negSucc m =>
      intro h
      have h2 := congrArg String.data h
      simp [toString, String.data_append] at h2

/-- `str()` of a truthy value is never empty. -/
theorem pyStr_ne_empty {v : Json} (hv : v.truthy = true) : v.pyStr ≠ "" := by
  cases v with
  | null => simp [Json.truthy] at hv
  | bool b =>
      cases b with
      | false => simp [Json.truthy] at hv
      | true => simp [Json.pyStr, Json.pyRepr]
  | num n => exact intToString_ne_empty n
  | str s => simpa [Json.truthy] using hv
  | arr xs =>
      intro h
      have h2 := congrArg String.length h
      simp [Json.pyStr, Json.pyRepr, String.length_append] at h2
      exact absurd h2.1.1 (by decide)
  | obj fs =>
      intro h
      have h2 := congrArg String.length h
      simp [Json.pyStr, Json.pyRepr, String.length_append] at h2
      exact absurd h2.1.1 (by decide)

/-- A token extracted by the top-level `token` branch is never empty. -/
theorem extractTokenTop_ne_empty {p : Fields} {t : String}
    (h : extractTokenTop p = some t) : t ≠ "" := by
  unfold extractTokenTop at h
  split at h
  next v _ =>
    split at h
    next hv => injection h with h'; subst h'; exact pyStr_ne_empty hv
    next => cases h
  next => cases h

/-- A token extracted by the `ticket.token` / top-level branches is never
empty. -/
theorem extractTokenFallback_ne_empty {p : Fields} {t : String}
    (h : extractTokenFallback p = some t) : t ≠ "" := by
  unfold extractTokenFallback at h
  split at h
  next tfs _ =>
    split at h
    next v _ =>
      split at h
      next hv => injection h with h'; subst h'; exact pyStr_ne_empty hv
      next => exact extractTokenTop_ne_empty h
    next => exact extractTokenTop_ne_empty h
  next => exact extractTokenTop_ne_empty h

/-- A token extracted by the `data.token` and later branches is never
empty. -/
theorem extractTokenAfterData_ne_empty {p : Fields} {d : Fields} {t : String}
    (h : extractTokenAfterData p d = some t) : t ≠ "" := by
  unfold extractTokenAfterData at h
  split at h
  next v _ =>
    split at h
    next hv => injection h with h'; subst h'; exact pyStr_ne_empty hv
    next => exact extractTokenFallback_ne_empty h
  next => exact extractTokenFallback_ne_empty h

/-- `_extract_token` never returns an empty token: every branch takes its
value only when truthy, and `str()` of a truthy value is nonempty. -/
theorem extract_token_ne_empty {p : Fields} {t : String}
    (h : extract_token p = some t) : t ≠ "" := by
  unfold extract_token at h
  split at h
  next d _ =>
    split at h
    next auth _ =>
      split at h
      next v _ =>
        split at h
        next hv => injection h with h'; subst h'; exact pyStr_ne_empty hv
        next => exact extractTokenAfterData_ne_empty h
      next => exact extractTokenAfterData_ne_empty h
    next => exact extractTokenAfterData_ne_empty h
  next => exact extractTokenFallback_ne_empty h

/-- A one-key path is a plain lookup. -/
theorem getPath_single (fs : Fields) (k : String) :
    (Json.obj fs).getPath [k] = objGet fs k := by
  unfold Json.getPath
  cases objGet fs k with
  | none => rfl
  | some v => cases v <;> rfl

/-- A two-key path in terms of lookups. -/
theorem getPath_double (fs : Fields) (k1 k2 : String) :
    (Json.obj fs).getPath [k1, k2] =
      (match objGet fs k1 with
       | some (.obj gs) => objGet gs k2
       | _ => none) := by
  conv_lhs => unfold Json.getPath
  cases objGet fs k1 with
  | none => rfl
  | some v =>
      cases v with
      | obj gs => dsimp only; rw [getPath_single]
      | null => rfl
      | bool b => rfl
      | num n => rfl
      | str s => rfl
      | arr xs => rfl

/-- A three-key path in terms of lookups. -/
theorem getPath_triple (fs : Fields) (k1 k2 k3 : String) :
    (Json.obj fs).getPath [k1, k2, k3] =
      (match objGet fs k1 with
       | some (.obj gs) => (Json.obj gs).getPath [k2, k3]
       | _ => none) := by
  conv_lhs => unfold Json.getPath
  cases objGet fs k1 with
  | none => rfl
  | some v => cases v <;> rfl

/-- The top-level branch matches the spec's last location. -/
theorem extractTokenTop_eq (p : Fields) :
    extractTokenTop p =
      (firstTokenLoc [(Json.obj p).getPath ["token"]]).map Json.pyStr := by
  unfold extractTokenTop
  rw [getPath_single]
  cases objGet p "token" with
  | none => rfl
  | some v =>
      simp only [firstTokenLoc]
      split <;> simp_all [firstTokenLoc]

/-- The `ticket.token` / top-level branches match the spec's last two
locations. -/
theorem extractTokenFallback_eq (p : Fields) :
    extractTokenFallback p =
      (firstTokenLoc [(Json.obj p).getPath ["ticket", "token"],
                      (Json.obj p).getPath ["token"]]).map Json.pyStr := by
  unfold extractTokenFallback
  rw [getPath_double]
  cases h : objGet p "ticket" with
  | none => simp [firstTokenLoc, extractTokenTop_eq]
  | some v =>
      cases v with
      | obj tfs =>
          dsimp only
          cases objGet tfs "token" with
          | none => simp [firstTokenLoc, extractTokenTop_eq]
          | some w =>
              by_cases hw : w.truthy
              · simp [firstTokenLoc, hw]
              · simp [firstTokenLoc, hw, extractTokenTop_eq]
      | null => simp [firstTokenLoc, extractTokenTop_eq]
      | bool b => simp [firstTokenLoc, extractTokenTop_eq]
      | num n => simp [firstTokenLoc, extractTokenTop_eq]
      | str s => simp [firstTokenLoc, extractTokenTop_eq]
      | arr xs => simp [firstTokenLoc, extractTokenTop_eq]

/-- The `data.token` and later branches match the spec's last three
locations (given that `data` is the dict `d`). -/
theorem extractTokenAfterData_eq (p : Fields) (d : Fields) :
    extractTokenAfterData p d =
      (firstTokenLoc [objGet d "token",
                      (Json.obj p).getPath ["ticket", "token"],
                      (Json.obj p).getPath ["token"]]).map Json.pyStr := by
  unfold extractTokenAfterData
  cases objGet d "token" with
  | none => simpa [firstTokenLoc] using extractTokenFallback_eq p
  | some v =>
      simp only [firstTokenLoc]
      split
      · simp
      · simpa [firstTokenLoc] using extractTokenFallback_eq p

/-- `_extract_token` is exactly the spec's four-location priority probe. -/
theorem extract_token_eq_spec (p : Fields) :
    extract_token p = extractTokenSpec p := by
  unfold extract_token extractTokenSpec tokenLocations
  rw [getPath_triple, getPath_double]
  cases hd : objGet p "data" with
  | none =>
      dsimp only
      simpa [firstTokenLoc] using extractTokenFallback_eq p
  | some v =>
      cases v with
      | obj d =>
          dsimp only
          rw [getPath_double]
          cases ha : objGet d "authTicket" with
          | none =>
              dsimp only
              simpa [firstTokenLoc] using extractTokenAfterData_eq p d
          | some w =>
              cases w with
              | obj auth =>
                  dsimp only
                  cases ht : objGet auth "token" with
                  | none =>
                      dsimp only
                      simpa [firstTokenLoc] using extractTokenAfterData_eq p d
                  | some u =>
                      by_cases hu : u.truthy
                      · simp [firstTokenLoc, hu]
                      · simpa [firstTokenLoc, hu] using extractTokenAfterData_eq p d
              | null => simpa [firstTokenLoc] using extractTokenAfterData_eq p d
              | bool b => simpa [firstTokenLoc] using extractTokenAfterData_eq p d
              | num n => simpa [firstTokenLoc] using extractTokenAfterData_eq p d
              | str s => simpa [firstTokenLoc] using extractTokenAfterData_eq p d
              | arr xs => simpa [firstTokenLoc] using extractTokenAfterData_eq p d
      | null => simpa [firstTokenLoc] using extractTokenFallback_eq p
      | bool b => simpa [firstTokenLoc] using extractTokenFallback_eq p
      | num n => simpa [firstTokenLoc] using extractTokenFallback_eq p
      | str s => simpa [firstTokenLoc] using extractTokenFallback_eq p
      | arr xs => simpa [firstTokenLoc] using extractTokenFallback_eq p

/-- No location of an all-empty list is picked. -/
theorem firstTokenLoc_all_empty {ls : List (Option Json)}
    (h : ls.all locEmpty = true) : firstTokenLoc ls = none := by
  induction ls with
  | nil => rfl
  | cons l rest ih =>
      rw [List.all_cons, Bool.and_eq_true] at h
      obtain ⟨h1, h2⟩ := h
      cases l with
      | none => simpa [firstTokenLoc] using ih h2
      | some v =>
          cases v with
          | str s =>
              rw [locEmpty, beq_iff_eq] at h1
              subst h1
              simpa [firstTokenLoc, Json.truthy] using ih h2
          | null => simp [locEmpty] at h1
          | bool b => simp [locEmpty] at h1
          | num n => simp [locEmpty] at h1
          | arr xs => simp [locEmpty] at h1
          | obj fs => simp [locEmpty] at h1

/-!
## Reduction lemmas

Unfolding equations for the operations, conditioned on the shape of the
scripted responses.
-/

/-- A login response that does not signal a redirect goes straight to the
status/token checks. -/
theorem login_no_redirect {st : ClientState} {r : HttpResp} {rest : List HttpResp}
    (hred : is_redirect (attachStatus r) = false) :
    login st (r :: rest) =
      loginFinish st (attachStatus r) [loginRequest st] rest := by
  unfold login
  dsimp only [doRequest]
  rw [hred]
  rfl

/-- A login response that signals a redirect with a nonempty region string
rebuilds the base URL and retries exactly once, then proceeds to the
status/token checks on the second response. -/
theorem login_redirect {st : ClientState} {r1 r2 : HttpResp} {rest : List HttpResp}
    {reg : String} (hred : is_redirect (attachStatus r1) = true)
    (hreg : region (attachStatus r1) = some reg) (hne : reg ≠ "") :
    login st (r1 :: r2 :: rest) =
      loginFinish { st with base_url := "https://api-" ++ reg.toLower ++ ".libreview.io" }
        (attachStatus r2)
        [loginRequest st,
         loginRequest { st with base_url := "https://api-" ++ reg.toLower ++ ".libreview.io" }]
        rest := by
  unfold login
  dsimp only [doRequest]
  rw [hred, hreg]
  dsimp only
  rw [if_neg hne]
  rfl

/-- `loginFinish` on an HTTP error status. -/
theorem loginFinish_failed {st : ClientState} {p : Fields} {reqs : List Request}
    {rest : List HttpResp} (hst : 400 ≤ http_status p) :
    loginFinish st p reqs rest =
      ⟨.error (.loginFailed (http_status p)), st, reqs, rest⟩ := by
  simp only [loginFinish]
  rw [if_pos hst]

/-- `loginFinish` on a success status with no extractable token. -/
theorem loginFinish_missing {st : ClientState} {p : Fields} {reqs : List Request}
    {rest : List HttpResp} (hst : http_status p < 400)
    (hext : extract_token p = none) :
    loginFinish st p reqs rest = ⟨.error .loginMissingToken, st, reqs, rest⟩ := by
  simp only [loginFinish]
  rw [if_neg (not_le.mpr hst), hext]

/-- `loginFinish` on a success status with a token and a user id: the token
is stored and the account hash becomes the SHA-256 of the user id. -/
theorem loginFinish_ok_uid {st : ClientState} {p : Fields} {reqs : List Request}
    {rest : List HttpResp} {tok uid : String} (hst : http_status p < 400)
    (htok : extract_token p = some tok) (huid : user_id_from_login p = some uid)
    (hne : uid ≠ "") :
    loginFinish st p reqs rest =
      ⟨.ok ⟨st.base_url, tok, some (sha256hex uid), st.version⟩,
       { st with token := some tok, account_id_hash := some (sha256hex uid) },
       reqs, rest⟩ := by
  simp only [loginFinish]
  rw [if_neg (not_le.mpr hst), htok]
  dsimp only
  rw [if_neg (extract_token_ne_empty htok), huid]
  dsimp only
  rw [if_pos hne]

/-- `loginFinish` on a success status with a token but no user id: the token
is stored and the account hash is left as it was. -/
theorem loginFinish_ok_nouid {st : ClientState} {p : Fields} {reqs : List Request}
    {rest : List HttpResp} {tok : String} (hst : http_status p < 400)
    (htok : extract_token p = some tok) (huid : user_id_from_login p = none) :
    loginFinish st p reqs rest =
      ⟨.ok ⟨st.base_url, tok, st.account_id_hash, st.version⟩,
       { st with token := some tok }, reqs, rest⟩ := by
  simp only [loginFinish]
  rw [if_neg (not_le.mpr hst), htok]
  dsimp only
  rw [if_neg (extract_token_ne_empty htok), huid]

/-- The wrapper without a minimum-version signal: one request, then token
rotation. -/
theorem call_no_mv {st : ClientState} {r : HttpResp} {rest : List HttpResp}
    {m path : String} {b : Option Json}
    (hmv : minimum_version (attachStatus r) = none) :
    call_with_min_version_retry st (r :: rest) m path b =
      finishCall st (attachStatus r) [callRequest st m path b] rest := by
  unfold call_with_min_version_retry
  dsimp only [doRequest]
  rw [hmv]
  rfl

/-- The wrapper with a minimum-version signal: the version is bumped and the
identical request re-issued exactly once; the second response is final. -/
theorem call_mv {st : ClientState} {r1 r2 : HttpResp} {rest : List HttpResp}
    {m path : String} {b : Option Json} {mv : String}
    (hmv : minimum_version (attachStatus r1) = some mv) (hne : mv ≠ "") :
    call_with_min_version_retry st (r1 :: r2 :: rest) m path b =
      finishCall { st with version := mv } (attachStatus r2)
        [callRequest st m path b, callRequest { st with version := mv } m path b]
        rest := by
  unfold call_with_min_version_retry
  dsimp only [doRequest]
  rw [hmv]
  dsimp only
  rw [if_neg hne]
  rfl

/-- Token rotation in the wrapper: a token in the final payload replaces the
stored one. -/
theorem finishCall_some {st : ClientState} {p : Fields} {reqs : List Request}
    {rest : List HttpResp} {t : String} (hext : extract_token p = some t) :
    finishCall st p reqs rest = ⟨.ok p, { st with token := some t }, reqs, rest⟩ := by
  simp only [finishCall]
  rw [hext]
  dsimp only
  rw [if_pos (extract_token_ne_empty hext)]

/-- No token in the final payload: the stored token is unchanged. -/
theorem finishCall_none {st : ClientState} {p : Fields} {reqs : List Request}
    {rest : List HttpResp} (hext : extract_token p = none) :
    finishCall st p reqs rest = ⟨.ok p, st, reqs, rest⟩ := by
  simp only [finishCall]
  rw [hext]

/-- The wrapper with a minimum-version signal whose version string is empty
(falsy): no retry. -/
theorem call_mv_empty {st : ClientState} {r : HttpResp} {rest : List HttpResp}
    {m path : String} {b : Option Json}
    (hmv : minimum_version (attachStatus r) = some "") :
    call_with_min_version_retry st (r :: rest) m path b =
      finishCall st (attachStatus r) [callRequest st m path b] rest := by
  unfold call_with_min_version_retry
  dsimp only [doRequest]
  rw [hmv]
  rfl

/-- The wrapper with a minimum-version signal but no scripted second
response: the model stops after the version bump. -/
theorem call_mv_short {st : ClientState} {r : HttpResp} {m path : String}
    {b : Option Json} {mv : String}
    (hmv : minimum_version (attachStatus r) = some mv) (hne : mv ≠ "") :
    call_with_min_version_retry st [r] m path b =
      ⟨.error .scriptEnds, { st with version := mv }, [callRequest st m path b], []⟩ := by
  unfold call_with_min_version_retry
  dsimp only [doRequest]
  rw [hmv]
  dsimp only
  rw [if_neg hne]
  rfl

/-- `finishCall` always succeeds with the payload it was given. -/
theorem finishCall_res (st : ClientState) (p : Fields) (reqs : List Request)
    (rest : List HttpResp) : (finishCall st p reqs rest).res = .ok p := by
  simp only [finishCall]

/-- `finishCall` reports exactly the requests it was given. -/
theorem finishCall_requests (st : ClientState) (p : Fields) (reqs : List Request)
    (rest : List HttpResp) : (finishCall st p reqs rest).requests = reqs := by
  simp only [finishCall]

/-- `finishCall` does not change the stored version. -/
theorem finishCall_version (st : ClientState) (p : Fields) (reqs : List Request)
    (rest : List HttpResp) : (finishCall st p reqs rest).state.version = st.version := by
  simp only [finishCall]
  cases hext : extract_token p with
  | none => rfl
  | some t => dsimp only; rw [if_pos (extract_token_ne_empty hext)]

/-- `finishCall` does not change the account hash. -/
theorem finishCall_hash (st : ClientState) (p : Fields) (reqs : List Request)
    (rest : List HttpResp) :
    (finishCall st p reqs rest).state.account_id_hash = st.account_id_hash := by
  simp only [finishCall]
  cases hext : extract_token p with
  | none => rfl
  | some t => dsimp only; rw [if_pos (extract_token_ne_empty hext)]

/-- `finishCall` keeps the stored token truthy. -/
theorem finishCall_truthy (st : ClientState) (p : Fields) (reqs : List Request)
    (rest : List HttpResp) (h : tokenTruthy st = true) :
    tokenTruthy (finishCall st p reqs rest).state = true := by
  simp only [finishCall]
  cases hext : extract_token p with
  | none => exact h
  | some t =>
      dsimp only
      rw [if_pos (extract_token_ne_empty hext)]
      simpa [tokenTruthy, optStrTruthy] using extract_token_ne_empty hext

/-- Every run of the wrapper either fails (script exhausted in the model) or
ends in `finishCall` from a state with the same token and account hash. -/
theorem call_shape (st : ClientState) (script : List HttpResp) (m path : String)
    (b : Option Json) :
    (call_with_min_version_retry st script m path b).res = .error .scriptEnds ∨
    (∃ st1 p1 reqs rest1, st1.token = st.token ∧
      st1.account_id_hash = st.account_id_hash ∧
      call_with_min_version_retry st script m path b = finishCall st1 p1 reqs rest1) := by
  cases script with
  | nil => left; rfl
  | cons r rest =>
      cases hmv : minimum_version (attachStatus r) with
      | none => right; exact ⟨st, attachStatus r, _, rest, rfl, rfl, call_no_mv hmv⟩
      | some mv =>
          by_cases hne : mv = ""
          · subst hne
            right
            exact ⟨st, attachStatus r, _, rest, rfl, rfl, call_mv_empty hmv⟩
          · cases rest with
            | nil => left; rw [call_mv_short hmv hne]
            | cons r2 rest2 =>
                right
                exact ⟨{ st with version := mv }, attachStatus r2, _, rest2, rfl, rfl,
                  call_mv hmv hne⟩

/-- The wrapper never changes the account hash. -/
theorem call_hash (st : ClientState) (script : List HttpResp) (m path : String)
    (b : Option Json) :
    (call_with_min_version_retry st script m path b).state.account_id_hash =
      st.account_id_hash := by
  cases script with
  | nil => rfl
  | cons r rest =>
      cases hmv : minimum_version (attachStatus r) with
      | none => rw [call_no_mv hmv, finishCall_hash]
      | some mv =>
          by_cases hne : mv = ""
          · subst hne; rw [call_mv_empty hmv, finishCall_hash]
          · cases rest with
            | nil => rw [call_mv_short hmv hne]
            | cons r2 rest2 => rw [call_mv hmv hne, finishCall_hash]

/-- The wrapper keeps the stored token truthy. -/
theorem call_truthy (st : ClientState) (script : List HttpResp) (m path : String)
    (b : Option Json) (h : tokenTruthy st = true) :
    tokenTruthy (call_with_min_version_retry st script m path b).state = true := by
  cases script with
  | nil => exact h
  | cons r rest =>
      cases hmv : minimum_version (attachStatus r) with
      | none => rw [call_no_mv hmv]; exact finishCall_truthy _ _ _ _ h
      | some mv =>
          by_cases hne : mv = ""
          · subst hne; rw [call_mv_empty hmv]; exact finishCall_truthy _ _ _ _ h
          · cases rest with
            | nil => rw [call_mv_short hmv hne]; exact h
            | cons r2 rest2 => rw [call_mv hmv hne]; exact finishCall_truthy _ _ _ _ h

/-- `loginFinish` reports exactly the requests it was given. -/
theorem loginFinish_requests (st : ClientState) (p : Fields) (reqs : List Request)
    (rest : List HttpResp) : (loginFinish st p reqs rest).requests = reqs := by
  simp only [loginFinish]
  split
  · rfl
  · split
    · rfl
    · split <;> rfl

/-- With a truthy stored token, `connections` is the wrapped call followed
by the status check — no login is triggered. -/
theorem connections_eq (st : ClientState) (script : List HttpResp)
    (h : tokenTruthy st = true) :
    connections st script =
      ⟨(match (call_with_min_version_retry st script "GET" "/llu/connections" none).res with
        | .error e => .error e
        | .ok p =>
            if 400 ≤ http_status p then .error (.connectionsFailed (http_status p))
            else .ok p),
       (call_with_min_version_retry st script "GET" "/llu/connections" none).state,
       (call_with_min_version_retry st script "GET" "/llu/connections" none).requests,
       (call_with_min_version_retry st script "GET" "/llu/connections" none).rest⟩ := by
  unfold connections ensureLogin
  rw [h]
  dsimp only [OpResult.andThen]
  cases hres : (call_with_min_version_retry st script "GET" "/llu/connections" none).res with
  | error e => simp [hres]
  | ok p => by_cases hc : 400 ≤ http_status p <;> simp [hres, hc]

/-- With a truthy stored token, `graph` is the wrapped call followed by the
status check — no login is triggered. -/
theorem graph_eq (st : ClientState) (script : List HttpResp) (pid : String)
    (h : tokenTruthy st = true) :
    graph st script pid =
      ⟨(match (call_with_min_version_retry st script "GET"
            ("/llu/connections/" ++ pid ++ "/graph") none).res with
        | .error e => .error e
        | .ok p =>
            if 400 ≤ http_status p then .error (.graphFailed (http_status p))
            else .ok p),
       (call_with_min_version_retry st script "GET"
          ("/llu/connections/" ++ pid ++ "/graph") none).state,
       (call_with_min_version_retry st script "GET"
          ("/llu/connections/" ++ pid ++ "/graph") none).requests,
       (call_with_min_version_retry st script "GET"
          ("/llu/connections/" ++ pid ++ "/graph") none).rest⟩ := by
  unfold graph ensureLogin
  rw [h]
  dsimp only [OpResult.andThen]
  cases hres : (call_with_min_version_retry st script "GET"
      ("/llu/connections/" ++ pid ++ "/graph") none).res with
  | error e => simp [hres]
  | ok p => by_cases hc : 400 ≤ http_status p <;> simp [hres, hc]

/-- `first_patient_id` is `connections` followed by the pure payload
analysis. -/
theorem first_patient_id_eq (st : ClientState) (script : List HttpResp) :
    first_patient_id st script =
      ⟨(match (connections st script).res with
        | .error e => .error e
        | .ok p => firstPatientIdOf p),
       (connections st script).state,
       (connections st script).requests,
       (connections st script).rest⟩ := by
  unfold first_patient_id
  dsimp only [OpResult.andThen]
  cases hres : (connections st script).res with
  | error e => simp [hres]
  | ok p => simp [hres]

/-- With a truthy stored token, `connections` preserves the account hash. -/
theorem connections_hash (st : ClientState) (script : List HttpResp)
    (h : tokenTruthy st = true) :
    (connections st script).state.account_id_hash = st.account_id_hash := by
  rw [connections_eq st script h]
  exact call_hash st script "GET" "/llu/connections" none

/-- With a truthy stored token, `connections` keeps it truthy. -/
theorem connections_truthy (st : ClientState) (script : List HttpResp)
    (h : tokenTruthy st = true) :
    tokenTruthy (connections st script).state = true := by
  rw [connections_eq st script h]
  exact call_truthy st script "GET" "/llu/connections" none h

/-- With a truthy stored token, `graph` preserves the account hash. -/
theorem graph_hash (st : ClientState) (script : List HttpResp) (pid : String)
    (h : tokenTruthy st = true) :
    (graph st script pid).state.account_id_hash = st.account_id_hash := by
  rw [graph_eq st script pid h]
  exact call_hash st script "GET" ("/llu/connections/" ++ pid ++ "/graph") none

/-- With a truthy stored token, `graph` keeps it truthy. -/
theorem graph_truthy (st : ClientState) (script : List HttpResp) (pid : String)
    (h : tokenTruthy st = true) :
    tokenTruthy (graph st script pid).state = true := by
  rw [graph_eq st script pid h]
  exact call_truthy st script "GET" ("/llu/connections/" ++ pid ++ "/graph") none h

/-- With a truthy stored token, `first_patient_id` preserves the account
hash. -/
theorem first_patient_id_hash (st : ClientState) (script : List HttpResp)
    (h : tokenTruthy st = true) :
    (first_patient_id st script).state.account_id_hash = st.account_id_hash := by
  rw [first_patient_id_eq]
  exact connections_hash st script h

/-- With a truthy stored token, `first_patient_id` keeps it truthy. -/
theorem first_patient_id_truthy (st : ClientState) (script : List HttpResp)
    (h : tokenTruthy st = true) :
    tokenTruthy (first_patient_id st script).state = true := by
  rw [first_patient_id_eq]
  exact connections_truthy st script h

/-- A continuation that only computes a result (no state change, no new
requests) leaves `andThen`'s state at the first operation's state. -/
theorem andThen_state_of_pure (r : OpResult α)
    (f : α → ClientState → List HttpResp → Except LLUError β) :
    (r.andThen fun a s rest => ⟨f a s rest, s, [], rest⟩).state = r.state := by
  unfold OpResult.andThen
  rcases r with ⟨res, s, reqs, rest⟩
  cases res <;> rfl

/-- With a truthy stored token, `last_reading` preserves the account
hash. -/
theorem last_reading_hash (st : ClientState) (script : List HttpResp)
    (h : tokenTruthy st = true) :
    (last_reading st script).state.account_id_hash = st.account_id_hash := by
  have hF := first_patient_id_hash st script h
  have hFt := first_patient_id_truthy st script h
  rcases hFstruct : first_patient_id st script with ⟨fres, fstate, freqs, frest⟩
  rw [hFstruct] at hF hFt
  dsimp only at hF hFt
  unfold last_reading
  rw [hFstruct]
  cases fres with
  | error e => exact hF
  | ok pid? =>
      cases pid? with
      | none => exact hF
      | some pid =>
          dsimp only [OpResult.andThen]
          by_cases hpid : pid = ""
          · rw [if_pos hpid]
            exact hF
          · rw [if_neg hpid]
            cases hgr : (graph fstate frest pid).res with
            | error e => exact (graph_hash fstate frest pid hFt).trans hF
            | ok g => exact (graph_hash fstate frest pid hFt).trans hF

/-- SHA-256 compression yields eight words. -/
theorem compress_length (hs block : List Nat) :
    (Sha256.compress hs block).length = 8 := rfl

/-- Folding SHA-256 compression over blocks keeps eight words. -/
theorem foldl_compress_length (bs : List (List Nat)) (hs : List Nat)
    (h : hs.length = 8) : (bs.foldl Sha256.compress hs).length = 8 := by
  induction bs generalizing hs with
  | nil => simpa using h
  | cons b rest ih => exact ih _ (compress_length hs b)

/-- A SHA-256 hex digest is never the empty string. -/
theorem sha256hex_ne_empty (s : String) : sha256hex s ≠ "" := by
  unfold sha256hex Sha256.hexdigest
  intro h
  have hd : ((Sha256.digestWords (utf8Encode s)).flatMap Sha256.wordHex) = [] := by
    simpa using congrArg String.data h
  have hlen : (Sha256.digestWords (utf8Encode s)).length = 8 :=
    foldl_compress_length _ _ rfl
  cases hw : Sha256.digestWords (utf8Encode s) with
  | nil => rw [hw] at hlen; simp at hlen
  | cons w ws =>
      rw [hw] at hd
      simp [Sha256.wordHex] at hd

/-!
## Claim theorems
-/

/-- **C1.** When the first login response signals a redirect
(`data.redirect = true`) with a region string, `login` rebuilds the base URL
as `https://api-{region}.libreview.io`, re-issues the login request exactly
once against that URL, and proceeds to the status/token checks on the second
response — the request log has exactly the two login requests, whatever the
second response contains (in particular even if it also signals a
redirect). -/
theorem C1_login_redirects_exactly_once (st : ClientState) (r1 r2 : HttpResp)
    (rest : List HttpResp) (reg : String)
    (hred : is_redirect (attachStatus r1) = true)
    (hreg : region (attachStatus r1) = some reg) (hne : reg ≠ "") :
    (login st (r1 :: r2 :: rest)).requests =
      [loginRequest st,
       loginRequest { st with base_url := "https://api-" ++ reg.toLower ++ ".libreview.io" }] ∧
    (loginRequest { st with base_url := "https://api-" ++ reg.toLower ++ ".libreview.io" }).url
      = "https://api-" ++ reg.toLower ++ ".libreview.io" ++ "/llu/auth/login" ∧
    login st (r1 :: r2 :: rest) =
      loginFinish { st with base_url := "https://api-" ++ reg.toLower ++ ".libreview.io" }
        (attachStatus r2)
        [loginRequest st,
         loginRequest { st with base_url := "https://api-" ++ reg.toLower ++ ".libreview.io" }]
        rest := by
  refine ⟨?_, rfl, login_redirect hred hreg hne⟩
  rw [login_redirect hred hreg hne, loginFinish_requests]

/-- Witness for C1: a concrete login whose first response redirects to
region `eu` and whose second response redirects again — exactly two
requests are sent, the second to the `api-eu` host. -/
theorem C1_witness :
    (login (mkClient "user@example.com" "pw")
      [⟨200, [("status", .num 0),
              ("data", .obj [("redirect", .bool true), ("region", .str "eu")])]⟩,
       ⟨200, [("status", .num 0),
              ("data", .obj [("redirect", .bool true), ("region", .str "eu")])]⟩]).requests =
      [loginRequest (mkClient "user@example.com" "pw"),
       loginRequest { mkClient "user@example.com" "pw" with
                        base_url := "https://api-" ++ "eu".toLower ++ ".libreview.io" }] :=
  (C1_login_redirects_exactly_once (mkClient "user@example.com" "pw")
    ⟨200, [("status", .num 0),
           ("data", .obj [("redirect", .bool true), ("region", .str "eu")])]⟩
    ⟨200, [("status", .num 0),
           ("data", .obj [("redirect", .bool true), ("region", .str "eu")])]⟩
    [] "eu" rfl rfl (by decide)).1

/-- **C2.** When a wrapped call's first response has HTTP status 403,
application status 920 and a `minimumVersion` string, the stored version is
set to that string and the identical request (same method, URL and body) is
re-issued exactly once, with the new version in its headers; the second
response is returned as-is — so even a second 403/920 signature triggers no
third request. -/
theorem C2_version_bump_retries_exactly_once (st : ClientState) (r1 r2 : HttpResp)
    (rest : List HttpResp) (m path : String) (b : Option Json) (mv : String)
    (hmv : minimum_version (attachStatus r1) = some mv) (hne : mv ≠ "") :
    call_with_min_version_retry st (r1 :: r2 :: rest) m path b =
      finishCall { st with version := mv } (attachStatus r2)
        [callRequest st m path b, callRequest { st with version := mv } m path b]
        rest ∧
    (call_with_min_version_retry st (r1 :: r2 :: rest) m path b).state.version = mv ∧
    (call_with_min_version_retry st (r1 :: r2 :: rest) m path b).requests =
      [callRequest st m path b, callRequest { st with version := mv } m path b] ∧
    ("version", mv) ∈ (callRequest { st with version := mv } m path b).headers ∧
    (call_with_min_version_retry st (r1 :: r2 :: rest) m path b).res =
      .ok (attachStatus r2) := by
  refine ⟨call_mv hmv hne, ?_, ?_, ?_, ?_⟩
  · rw [call_mv hmv hne, finishCall_version]
  · rw [call_mv hmv hne, finishCall_requests]
  · simp [callRequest, headers]
  · rw [call_mv hmv hne, finishCall_res]

/-- Witness for C2: a concrete wrapped call whose first response carries the
403/920 + `minimumVersion` signature and whose second response carries it
again — the stored version becomes the minimum and the second response is
returned with no third request. -/
theorem C2_witness :
    (call_with_min_version_retry
        { mkClient "user@example.com" "pw" with token := some "T0" }
        [⟨403, [("status", .num 920), ("data", .obj [("minimumVersion", .str "4.20.1")])]⟩,
         ⟨403, [("status", .num 920), ("data", .obj [("minimumVersion", .str "4.20.1")])]⟩]
        "GET" "/llu/connections" none).state.version = "4.20.1" ∧
    (call_with_min_version_retry
        { mkClient "user@example.com" "pw" with token := some "T0" }
        [⟨403, [("status", .num 920), ("data", .obj [("minimumVersion", .str "4.20.1")])]⟩,
         ⟨403, [("status", .num 920), ("data", .obj [("minimumVersion", .str "4.20.1")])]⟩]
        "GET" "/llu/connections" none).requests =
      [callRequest { mkClient "user@example.com" "pw" with token := some "T0" }
         "GET" "/llu/connections" none,
       callRequest { { mkClient "user@example.com" "pw" with token := some "T0" } with
                       version := "4.20.1" } "GET" "/llu/connections" none] :=
  ⟨(C2_version_bump_retries_exactly_once
      { mkClient "user@example.com" "pw" with token := some "T0" }
      ⟨403, [("status", .num 920), ("data", .obj [("minimumVersion", .str "4.20.1")])]⟩
      ⟨403, [("status", .num 920), ("data", .obj [("minimumVersion", .str "4.20.1")])]⟩
      [] "GET" "/llu/connections" none "4.20.1" rfl (by decide)).2.1,
   (C2_version_bump_retries_exactly_once
      { mkClient "user@example.com" "pw" with token := some "T0" }
      ⟨403, [("status", .num 920), ("data", .obj [("minimumVersion", .str "4.20.1")])]⟩
      ⟨403, [("status", .num 920), ("data", .obj [("minimumVersion", .str "4.20.1")])]⟩
      [] "GET" "/llu/connections" none "4.20.1" rfl (by decide)).2.2.1⟩

/-- **C9.** When a wrapped call succeeds with payload `p`, a token carried
by `p` (at any of the four extraction locations) replaces the stored
session token before the payload is returned, and an absent token leaves
the stored token unchanged. -/
theorem C9_wrapper_rotates_token (st : ClientState) (script : List HttpResp)
    (m path : String) (b : Option Json) (p : Fields)
    (hok : (call_with_min_version_retry st script m path b).res = .ok p) :
    (∀ t, extract_token p = some t →
      (call_with_min_version_retry st script m path b).state.token = some t) ∧
    (extract_token p = none →
      (call_with_min_version_retry st script m path b).state.token = st.token) := by
  rcases call_shape st script m path b with herr | ⟨st1, p1, reqs, rest1, htok, _, heq⟩
  · rw [herr] at hok; cases hok
  · rw [heq, finishCall_res] at hok
    injection hok with hp
    subst hp
    constructor
    · intro t hext
      rw [heq, finishCall_some hext]
    · intro hext
      rw [heq, finishCall_none hext]
      exact htok

/-- Witness for C9: a concrete wrapped call whose response rotates the
token via `ticket.token`. -/
theorem C9_witness :
    (call_with_min_version_retry
        { mkClient "user@example.com" "pw" with token := some "T0" }
        [⟨200, [("ticket", .obj [("token", .str "T1")]), ("data", .arr [])]⟩]
        "GET" "/llu/connections" none).state.token = some "T1" :=
  (C9_wrapper_rotates_token
      { mkClient "user@example.com" "pw" with token := some "T0" }
      [⟨200, [("ticket", .obj [("token", .str "T1")]), ("data", .arr [])]⟩]
      "GET" "/llu/connections" none
      (attachStatus ⟨200, [("ticket", .obj [("token", .str "T1")]), ("data", .arr [])]⟩)
      rfl).1 "T1" rfl

/-- **C3.** `_extract_token` examines exactly the four payload locations
`data.authTicket.token`, `data.token`, `ticket.token` and top-level `token`,
in that priority order, returns `str()` of the value of the first location
holding a (truthy) token, and returns none when no location holds one —
`extractTokenSpec` is that four-location probe written from the spec, and
this single function is the one `login` and the version-retry wrapper (and
through it `connections` and `graph`) apply to their responses. -/
theorem C3_extract_token_priority_order (p : Fields) :
    extract_token p = extractTokenSpec p :=
  extract_token_eq_spec p

/-- **C10.** Token extraction treats an empty-string token like an absent
one: an empty string at `data.authTicket.token` makes extraction fall
through to the remaining three locations; a payload whose four token
locations are all absent or empty strings yields no token; and a login
response shaped that way (no redirect, success status) fails as
missing-token. -/
theorem C10_empty_token_falls_through (p : Fields) :
    ((Json.obj p).getPath ["data", "authTicket", "token"] = some (.str "") →
      extract_token p =
        (firstTokenLoc [(Json.obj p).getPath ["data", "token"],
                        (Json.obj p).getPath ["ticket", "token"],
                        (Json.obj p).getPath ["token"]]).map Json.pyStr) ∧
    (allTokenLocsEmpty p = true → extract_token p = none) ∧
    (∀ (st : ClientState) (r : HttpResp) (rest : List HttpResp),
      allTokenLocsEmpty (attachStatus r) = true →
      is_redirect (attachStatus r) = false →
      http_status (attachStatus r) < 400 →
      (login st (r :: rest)).res = .error .loginMissingToken) := by
  refine ⟨fun h => ?_, fun h => ?_, fun st r rest hall hred hst => ?_⟩
  · rw [extract_token_eq_spec]
    unfold extractTokenSpec tokenLocations
    rw [h]
    simp [firstTokenLoc, Json.truthy]
  · rw [extract_token_eq_spec]
    unfold extractTokenSpec
    rw [firstTokenLoc_all_empty h]
    rfl
  · have hext : extract_token (attachStatus r) = none := by
      rw [extract_token_eq_spec]
      unfold extractTokenSpec
      rw [firstTokenLoc_all_empty hall]
      rfl
    rw [login_no_redirect hred, loginFinish_missing hst hext]

/-- Witness for C10: a payload whose four token locations all hold the
empty string yields no token, and a login answered by such a payload fails
as missing-token. -/
theorem C10_witness :
    extract_token
      [("data", .obj [("authTicket", .obj [("token", .str "")]), ("token", .str "")]),
       ("ticket", .obj [("token", .str "")]), ("token", .str "")] = none ∧
    (login (mkClient "user@example.com" "pw")
      [⟨200, [("data", .obj [("authTicket", .obj [("token", .str "")]),
                             ("token", .str "")])]⟩]).res =
      .error .loginMissingToken :=
  ⟨(C10_empty_token_falls_through
      [("data", .obj [("authTicket", .obj [("token", .str "")]), ("token", .str "")]),
       ("ticket", .obj [("token", .str "")]), ("token", .str "")]).2.1 rfl,
   (C10_empty_token_falls_through []).2.2 (mkClient "user@example.com" "pw")
     ⟨200, [("data", .obj [("authTicket", .obj [("token", .str "")]),
                           ("token", .str "")])]⟩ [] rfl rfl (by decide)⟩

/-- Counterexample to C4 as stated: with connections data `[{}]` — a
non-empty list whose only element is an object carrying no identifier
field — `first_patient_id` returns no-value instead of failing with a
`DataShapeError`. -/
theorem C4_counterexample :
    objGet (attachStatus ⟨200, [("data", .arr [.obj []])]⟩) "data" =
      some (.arr [.obj []]) ∧
    (first_patient_id { mkClient "user@example.com" "pw" with token := some "T0" }
        [⟨200, [("data", .arr [.obj []])]⟩]).res = .ok none := by
  exact ⟨rfl, rfl⟩

/-- **C4 (amended).** `first_patient_id` returns no-value when the
connections payload's data field is an empty list, and also when it is a
non-empty list whose first element is an object without a truthy
`patientId`/`patient_id`; when the first element is an object with a truthy
identifier it returns `str()` of that value; it fails with `DataShapeError`
exactly when the data field is not a list; and a non-object first element
raises an `AttributeError` instead. -/
theorem C4_first_patient_id_amended (st : ClientState) (script : List HttpResp)
    (p : Fields) (hok : (connections st script).res = .ok p) :
    (first_patient_id st script).res = firstPatientIdOf p ∧
    (objGet p "data" = some (.arr []) → firstPatientIdOf p = .ok none) ∧
    (∀ fs tl, objGet p "data" = some (.arr (.obj fs :: tl)) →
      firstPatientIdOf p =
        .ok (match pyOr (objGet fs "patientId") (objGet fs "patient_id") with
             | some v => if v.truthy then some v.pyStr else none
             | none => none)) ∧
    (∀ j tl, objGet p "data" = some (.arr (j :: tl)) → (∀ fs, j ≠ .obj fs) →
      firstPatientIdOf p = .error .attributeError) ∧
    ((∀ l, objGet p "data" ≠ some (.arr l)) →
      firstPatientIdOf p = .error .unexpectedConnectionsPayload) := by
  refine ⟨?_, fun h => ?_, fun fs tl h => ?_, fun j tl h hne => ?_, fun h => ?_⟩
  · rw [first_patient_id_eq, hok]
  · unfold firstPatientIdOf
    rw [h]
  · unfold firstPatientIdOf
    rw [h]
    dsimp only
    cases pyOr (objGet fs "patientId") (objGet fs "patient_id") with
    | none => rfl
    | some v => by_cases hv : v.truthy <;> simp [hv]
  · unfold firstPatientIdOf
    rw [h]
    dsimp only
    cases j with
    | obj fs => exact absurd rfl (hne fs)
    | null => rfl
    | bool b => rfl
    | num n => rfl
    | str s => rfl
    | arr xs => rfl
  · unfold firstPatientIdOf
    cases hd : objGet p "data" with
    | none => rfl
    | some v =>
        cases v with
        | arr l => exact absurd hd (h l)
        | null => rfl
        | bool b => rfl
        | num n => rfl
        | str s => rfl
        | obj fs => rfl

/-- Witness for C4 (amended): a concrete run whose connections data is a
one-element list with a truthy `patientId`. -/
theorem C4_witness :
    (first_patient_id { mkClient "user@example.com" "pw" with token := some "T0" }
        [⟨200, [("data", .arr [.obj [("patientId", .str "P9")]])]⟩]).res =
      firstPatientIdOf (attachStatus ⟨200, [("data", .arr [.obj [("patientId", .str "P9")]])]⟩) :=
  (C4_first_patient_id_amended
      { mkClient "user@example.com" "pw" with token := some "T0" }
      [⟨200, [("data", .arr [.obj [("patientId", .str "P9")]])]⟩]
      (attachStatus ⟨200, [("data", .arr [.obj [("patientId", .str "P9")]])]⟩) rfl).1

/-- Counterexample to C5 as stated: HTTP 302 is not a 2xx status, yet a
login answered by a 302 response carrying a token succeeds instead of
failing. -/
theorem C5_counterexample :
    http_status (attachStatus
      ⟨302, [("data", .obj [("authTicket", .obj [("token", .str "T3")])])]⟩) = 302 ∧
    ¬ (200 ≤ (302 : Int) ∧ (302 : Int) < 300) ∧
    (login (mkClient "user@example.com" "pw")
        [⟨302, [("data", .obj [("authTicket", .obj [("token", .str "T3")])])]⟩]).res =
      .ok ⟨"https://api.libreview.io", "T3", none, "4.16.0"⟩ := by
  exact ⟨rfl, by decide, rfl⟩

/-- **C5 (amended).** Operations fail on HTTP status ≥ 400 (not on every
non-2xx status): `login` fails with the login-failure error when the
(post-redirect) response status is ≥ 400, and with the missing-token error
when the status is below 400 but no token can be extracted; `connections`
and `graph` fail with their API errors when the wrapped call's (post-retry)
payload has status ≥ 400. -/
theorem C5_status_failures_amended :
    (∀ (st : ClientState) (r : HttpResp) (rest : List HttpResp),
      is_redirect (attachStatus r) = false → 400 ≤ http_status (attachStatus r) →
      (login st (r :: rest)).res =
        .error (.loginFailed (http_status (attachStatus r)))) ∧
    (∀ (st : ClientState) (r1 r2 : HttpResp) (rest : List HttpResp) (reg : String),
      is_redirect (attachStatus r1) = true → region (attachStatus r1) = some reg →
      reg ≠ "" → 400 ≤ http_status (attachStatus r2) →
      (login st (r1 :: r2 :: rest)).res =
        .error (.loginFailed (http_status (attachStatus r2)))) ∧
    (∀ (st : ClientState) (r : HttpResp) (rest : List HttpResp),
      is_redirect (attachStatus r) = false → http_status (attachStatus r) < 400 →
      extract_token (attachStatus r) = none →
      (login st (r :: rest)).res = .error .loginMissingToken) ∧
    (∀ (st : ClientState) (script : List HttpResp) (p : Fields),
      tokenTruthy st = true →
      (call_with_min_version_retry st script "GET" "/llu/connections" none).res = .ok p →
      400 ≤ http_status p →
      (connections st script).res = .error (.connectionsFailed (http_status p))) ∧
    (∀ (st : ClientState) (script : List HttpResp) (pid : String) (p : Fields),
      tokenTruthy st = true →
      (call_with_min_version_retry st script "GET"
          ("/llu/connections/" ++ pid ++ "/graph") none).res = .ok p →
      400 ≤ http_status p →
      (graph st script pid).res = .error (.graphFailed (http_status p))) := by
  refine ⟨fun st r rest hred hst => ?_,
          fun st r1 r2 rest reg hred hreg hne hst => ?_,
          fun st r rest hred hst hext => ?_,
          fun st script p htr hok hst => ?_,
          fun st script pid p htr hok hst => ?_⟩
  · rw [login_no_redirect hred, loginFinish_failed hst]
  · rw [login_redirect hred hreg hne, loginFinish_failed hst]
  · rw [login_no_redirect hred, loginFinish_missing hst hext]
  · rw [connections_eq st script htr]
    dsimp only
    rw [hok]
    dsimp only
    rw [if_pos hst]
  · rw [graph_eq st script pid htr]
    dsimp only
    rw [hok]
    dsimp only
    rw [if_pos hst]

/-- Witness for C5 (amended): a 500 login response fails with the login
error, and a connections call whose wrapped payload has status 500 fails
with the connections error. -/
theorem C5_witness :
    (login (mkClient "user@example.com" "pw")
        [⟨500, [("status", .num 2)]⟩]).res = .error (.loginFailed 500) ∧
    (connections { mkClient "user@example.com" "pw" with token := some "T0" }
        [⟨500, [("status", .num 2)]⟩]).res = .error (.connectionsFailed 500) :=
  ⟨C5_status_failures_amended.1 (mkClient "user@example.com" "pw")
      ⟨500, [("status", .num 2)]⟩ [] rfl (by decide),
   C5_status_failures_amended.2.2.2.1
      { mkClient "user@example.com" "pw" with token := some "T0" }
      [⟨500, [("status", .num 2)]⟩] (attachStatus ⟨500, [("status", .num 2)]⟩)
      rfl rfl (by decide)⟩

/-- **C6.** `last_reading` fails with the no-connection error — carrying
the verbatim, user-actionable sharing instructions — whenever
`first_patient_id` resolves no patient id; once the graph payload is
obtained, a missing or falsy `data.connection` (after the `or {}` default)
or a missing/falsy `glucoseMeasurement` yields the data-shape error that
lists the key names present under `data.connection`, a truthy non-dict
`data` or `connection` yields the corresponding shape error, and a truthy
`glucoseMeasurement` is returned. -/
theorem C6_last_reading_error_taxonomy (st : ClientState) (script : List HttpResp) :
    ((first_patient_id st script).res = .ok none →
      (last_reading st script).res = .error (.noConnections noConnectionsMessage)) ∧
    (∀ pid g, (first_patient_id st script).res = .ok (some pid) → pid ≠ "" →
      (graph (first_patient_id st script).state (first_patient_id st script).rest
          pid).res = .ok g →
      (last_reading st script).res = readingOf g) ∧
    (∀ g dfs cfs, pyOrD (objGet g "data") (.obj []) = .obj dfs →
      pyOrD (objGet dfs "connection") (.obj []) = .obj cfs →
      optTruthy (objGet cfs "glucoseMeasurement") = false →
      readingOf g = .error (.missingGlucoseMeasurement (cfs.map Prod.fst))) ∧
    (∀ g dfs cfs v, pyOrD (objGet g "data") (.obj []) = .obj dfs →
      pyOrD (objGet dfs "connection") (.obj []) = .obj cfs →
      objGet cfs "glucoseMeasurement" = some v → v.truthy = true →
      readingOf g = .ok v) ∧
    (∀ g dfs c, pyOrD (objGet g "data") (.obj []) = .obj dfs →
      pyOrD (objGet dfs "connection") (.obj []) = c → (∀ fs, c ≠ .obj fs) →
      readingOf g = .error .graphConnectionNotDict) ∧
    (∀ g c, pyOrD (objGet g "data") (.obj []) = c → (∀ fs, c ≠ .obj fs) →
      readingOf g = .error .graphDataNotDict) := by
  refine ⟨fun hnone => ?_,
          fun pid g h1 hpid h2 => ?_,
          fun g dfs cfs h1 h2 h3 => ?_,
          fun g dfs cfs v h1 h2 h3 h4 => ?_,
          fun g dfs c h1 h2 h3 => ?_,
          fun g c h1 h2 => ?_⟩
  · rcases hFstruct : first_patient_id st script with ⟨fres, fstate, freqs, frest⟩
    rw [hFstruct] at hnone
    dsimp only at hnone
    subst hnone
    unfold last_reading
    rw [hFstruct]
    rfl
  · rcases hFstruct : first_patient_id st script with ⟨fres, fstate, freqs, frest⟩
    rw [hFstruct] at h1 h2
    dsimp only at h1 h2
    subst h1
    unfold last_reading
    rw [hFstruct]
    dsimp only [OpResult.andThen]
    rw [if_neg hpid]
    rcases hGstruct : graph fstate frest pid with ⟨gres, gstate, greqs, grest⟩
    rw [hGstruct] at h2
    dsimp only at h2
    subst h2
    rfl
  · unfold readingOf
    rw [h1]
    dsimp only
    rw [h2]
    dsimp only
    cases hglu : objGet cfs "glucoseMeasurement" with
    | none => rfl
    | some v =>
        rw [hglu] at h3
        simp only [optTruthy] at h3
        dsimp only
        rw [if_neg (by simp [h3])]
  · unfold readingOf
    rw [h1]
    dsimp only
    rw [h2]
    dsimp only
    rw [h3]
    dsimp only
    rw [if_pos h4]
  · unfold readingOf
    rw [h1]
    dsimp only
    rw [h2]
    cases c with
    | obj fs => exact absurd rfl (h3 fs)
    | null => rfl
    | bool b => rfl
    | num n => rfl
    | str s => rfl
    | arr xs => rfl
  · unfold readingOf
    rw [h1]
    cases c with
    | obj fs => exact absurd rfl (h2 fs)
    | null => rfl
    | bool b => rfl
    | num n => rfl
    | str s => rfl
    | arr xs => rfl

/-- Witness for C6: an empty connections list makes `last_reading` fail
with the no-connection message, and a graph payload whose connection dict
has keys `a`, `b` but no `glucoseMeasurement` classifies as the data-shape
error listing `["a", "b"]`. -/
theorem C6_witness :
    (last_reading { mkClient "user@example.com" "pw" with token := some "T0" }
        [⟨200, [("data", .arr [])]⟩]).res =
      .error (.noConnections noConnectionsMessage) ∧
    readingOf [("data", .obj [("connection", .obj [("a", .num 1), ("b", .num 2)])])] =
      .error (.missingGlucoseMeasurement ["a", "b"]) :=
  ⟨(C6_last_reading_error_taxonomy
      { mkClient "user@example.com" "pw" with token := some "T0" }
      [⟨200, [("data", .arr [])]⟩]).1 rfl,
   (C6_last_reading_error_taxonomy (mkClient "user@example.com" "pw") []).2.2.1
      [("data", .obj [("connection", .obj [("a", .num 1), ("b", .num 2)])])]
      [("connection", .obj [("a", .num 1), ("b", .num 2)])]
      [("a", .num 1), ("b", .num 2)] rfl rfl rfl⟩

/-- **C7.** On a successful login whose payload carries `data.user.id`, the
stored account identifier is the hex SHA-256 digest of that id and the
`account-id` header of subsequent requests carries it; without a user id
(and with no previous hash) the login still succeeds, the stored hash stays
`None` and no `account-id` header is sent. -/
theorem C7_account_id_hash (st : ClientState) (r : HttpResp) (rest : List HttpResp)
    (tok : String) (hred : is_redirect (attachStatus r) = false)
    (hst : http_status (attachStatus r) < 400)
    (htok : extract_token (attachStatus r) = some tok) :
    (∀ uid, user_id_from_login (attachStatus r) = some uid → uid ≠ "" →
      login st (r :: rest) =
        ⟨.ok ⟨st.base_url, tok, some (sha256hex uid), st.version⟩,
         { st with token := some tok, account_id_hash := some (sha256hex uid) },
         [loginRequest st], rest⟩ ∧
      ("account-id", sha256hex uid) ∈
        headers { st with token := some tok,
                          account_id_hash := some (sha256hex uid) }) ∧
    (user_id_from_login (attachStatus r) = none → st.account_id_hash = none →
      login st (r :: rest) =
        ⟨.ok ⟨st.base_url, tok, none, st.version⟩,
         { st with token := some tok }, [loginRequest st], rest⟩ ∧
      ∀ v, ("account-id", v) ∉ headers { st with token := some tok }) := by
  constructor
  · intro uid huid hne
    refine ⟨?_, ?_⟩
    · rw [login_no_redirect hred, loginFinish_ok_uid hst htok huid hne]
    · simp [headers, sha256hex_ne_empty uid]
  · intro huid hnone
    refine ⟨?_, ?_⟩
    · rw [login_no_redirect hred, loginFinish_ok_nouid hst htok huid, hnone]
    · intro v
      simp [headers, hnone]

/-- Witness for C7: a login response with token `T1` and user id `U1`
stores the SHA-256 of `U1` (also spelled out as the digest hex digits), and
one with a token but no user id stores nothing. -/
theorem C7_witness :
    (login (mkClient "user@example.com" "pw")
        [⟨200, [("data", .obj [("authTicket", .obj [("token", .str "T1")]),
                               ("user", .obj [("id", .str "U1")])])]⟩]).state.account_id_hash
      = some (sha256hex "U1") ∧
    sha256hex "U1" =
      "316ca0efda6296d8f2c11d1e20890d220cec4266a0c16fbbef324c004688468a" ∧
    (login (mkClient "user@example.com" "pw")
        [⟨200, [("data", .obj [("authTicket", .obj [("token", .str "T1")])])]⟩]).state.account_id_hash
      = none :=
  ⟨by
    rw [((C7_account_id_hash (mkClient "user@example.com" "pw")
        ⟨200, [("data", .obj [("authTicket", .obj [("token", .str "T1")]),
                              ("user", .obj [("id", .str "U1")])])]⟩ []
        "T1" rfl (by decide) rfl).1 "U1" rfl (by decide)).1],
   by rfl,
   by
    rw [((C7_account_id_hash (mkClient "user@example.com" "pw")
        ⟨200, [("data", .obj [("authTicket", .obj [("token", .str "T1")])])]⟩ []
        "T1" rfl (by decide) rfl).2 rfl rfl).1]
    rfl⟩

/-- **C8.** Session-state invariants: whenever the stored token is a
nonempty string, the headers built for any request carry it as a Bearer
authorization; and with a live (truthy) token — i.e. when no fresh login
can be triggered — the version-retry wrapper, `connections`, `graph`,
`first_patient_id` and `last_reading` all leave `account_id_hash`
unchanged. -/
theorem C8_session_invariants :
    (∀ (st : ClientState) (t : String), st.token = some t → t ≠ "" →
      ("authorization", "Bearer " ++ t) ∈ headers st) ∧
    (∀ (st : ClientState) (script : List HttpResp) (m path : String)
        (b : Option Json),
      (call_with_min_version_retry st script m path b).state.account_id_hash =
        st.account_id_hash) ∧
    (∀ (st : ClientState) (script : List HttpResp), tokenTruthy st = true →
      (connections st script).state.account_id_hash = st.account_id_hash) ∧
    (∀ (st : ClientState) (script : List HttpResp) (pid : String),
      tokenTruthy st = true →
      (graph st script pid).state.account_id_hash = st.account_id_hash) ∧
    (∀ (st : ClientState) (script : List HttpResp), tokenTruthy st = true →
      (first_patient_id st script).state.account_id_hash = st.account_id_hash) ∧
    (∀ (st : ClientState) (script : List HttpResp), tokenTruthy st = true →
      (last_reading st script).state.account_id_hash = st.account_id_hash) := by
  refine ⟨fun st t h1 h2 => ?_, call_hash, connections_hash, graph_hash,
          first_patient_id_hash, last_reading_hash⟩
  simp [headers, h1, h2]

/-- Witness for C8: a concrete client state with token `T0` and stored hash
`H0` sends the Bearer header, and a full `last_reading` run leaves the hash
untouched. -/
theorem C8_witness :
    ("authorization", "Bearer " ++ "T0") ∈
      headers { mkClient "user@example.com" "pw" with
                  token := some "T0", account_id_hash := some "H0" } ∧
    (last_reading { mkClient "user@example.com" "pw" with
                      token := some "T0", account_id_hash := some "H0" }
        [⟨200, [("data", .arr [.obj [("patientId", .str "P9")]])]⟩,
         ⟨200, [("data", .obj [("connection",
            .obj [("glucoseMeasurement", .obj [("Value", .num 102)])])])]⟩]).state.account_id_hash
      = some "H0" :=
  ⟨C8_session_invariants.1
      { mkClient "user@example.com" "pw" with
          token := some "T0", account_id_hash := some "H0" } "T0" rfl (by decide),
   C8_session_invariants.2.2.2.2.2
      { mkClient "user@example.com" "pw" with
          token := some "T0", account_id_hash := some "H0" }
      [⟨200, [("data", .arr [.obj [("patientId", .str "P9")]])]⟩,
       ⟨200, [("data", .obj [("connection",
          .obj [("glucoseMeasurement", .obj [("Value", .num 102)])])])]⟩] rfl⟩

end LLU
